import Mathlib

/-!
# Verification of `ObstacleCameraPerception`
Shallow embedding of
`modules/perception/camera/app/obstacle_camera_perception.cc`.

Pluggable stage algorithms (detector, tracker, transformer, postprocessor,
feature extractor, lane detector, lane postprocessor) are out-of-scope
collaborators; each is embedded as an oracle of type `Frame → Bool × Frame`
mirroring the C++ signature `bool Stage(options, CameraFrame*)` (success flag
plus the frame as mutated by the stage).  The orchestrator (`Perception`) and
the initializer (`Init`) are translated from the source; in addition to the
source's result they produce the trace of stage invocations, each event
recording the stage and the frame value at the moment of the call, so that
ordering and skipping properties of the pipeline can be stated.
-/

namespace ApolloPerception

/-- Opaque token standing for an `Eigen::Matrix3f` camera intrinsic matrix. -/
structure Mat3 where
  val : Nat
deriving DecidableEq, Repr

/-- Modelled from the spec: the Calibration State's externally-observable
corrected camera geometry (the "current best-known camera geometry
corrections" owned by the long-lived calibration service, which is defined
outside this file, in the camera lib interface layer). -/
structure CalibState where
  correctedGeometry : Int
deriving DecidableEq, Repr

/-- Modelled from the spec: a `BaseCalibrationService` instance (its class is
defined outside this file).  It knows the designated calibration working
sensor, carries the cross-frame `CalibState`, and owns a calibrator algorithm
`recompute` that derives a fresh geometry correction (and a success flag) from
a frame's lane observations. -/
structure CalibService where
  workingSensorName : String
  recompute : List Nat → Bool × Int
  state : CalibState

/-- A detected or tracked obstacle (`base::Object`): 3D bounding geometry
(`center`, `size`), the derived 2D polygon footprint, the anchor point, and
the producing sensor's identity (`camera_supplement.sensor_name`). -/
structure Obj where
  center : Int × Int × Int
  anchorPoint : Int × Int × Int
  size : Int × Int × Int
  polygon : List (Int × Int)
  sensorName : String

/-- The `CameraFrame` unit of work.  `sensorName` is
`data_provider->sensor_name()`; `calibrationService` is the
`frame->calibration_service` pointer (`none` = null). -/
structure Frame where
  sensorName : String
  frameId : Nat
  cameraKMatrix : Option Mat3
  laneObjects : List Nat
  detectedObjects : List Obj
  trackedObjects : List Obj
  calibrationService : Option CalibService

/-- A pluggable stage invocation: success flag plus the mutated frame. -/
abbrev StageFn := Frame → Bool × Frame

/-- Modelled from the spec: `BaseCalibrationService::Update(frame)` (defined
outside this file).  When the frame's sensor is the calibration working
sensor it recomputes the geometry correction freshly from the frame's lane
observations; for every other sensor it is a no-op refresh that reuses the
previously stored state.  It reports a success flag (the spec treats the
fresh update as a distinct failure point). -/
def CalibService.update (svc : CalibService) (sensorName : String)
    (lanes : List Nat) : Bool × CalibService :=
  if sensorName = svc.workingSensorName then
    let r := svc.recompute lanes
    (r.1, { svc with state := { correctedGeometry := r.2 } })
  else
    (true, svc)

/-- The stages of the per-frame pipeline, used to label trace events. -/
inductive Stage where
  | laneDetect
  | lanePost2D
  | calibUpdate
  | lanePost3D
  | trackerPredict
  | detect
  | extract
  | associate2D
  | transform
  | postprocess
  | associate3D
  | track
deriving DecidableEq, Repr

/-- A trace event: the stage invoked and the frame at the moment of the
invocation. -/
abbrev Event := Stage × Frame

/-- Outcome of one `Perception` call.  `ok`/`fail` are the C++ `return true`
/ `return false`, carrying the frame as mutated so far.  `unknownSensor` is
the `std::out_of_range` thrown by `std::map::at` on a sensor name absent from
a per-sensor map (line 300 and line 365).  `abort` is a failed runtime
`CHECK` (fatal, does not return). -/
inductive PResult where
  | ok (f : Frame)
  | fail (f : Frame)
  | unknownSensor
  | abort

/-- Association-list lookup with `std::map` semantics (unique keys). -/
def mapFind {α : Type} : List (String × α) → String → Option α
  | [], _ => none
  | (k, v) :: rest, key => if k = key then some v else mapFind rest key

/-- `std::map::insert`: keeps the existing entry when the key is present. -/
def mapInsert {α : Type} (m : List (String × α)) (k : String) (v : α) :
    List (String × α) :=
  if (mapFind m k).isSome then m else m ++ [(k, v)]

/-- Run one checked stage: invoke the oracle on the frame; on failure return
`false` immediately (fail-fast `if (!stage(...)) return false;`), on success
continue with the mutated frame.  The event records the frame at invocation. -/
def runStage (s : Stage) (fn : StageFn) (f : Frame)
    (k : Frame → PResult × List Event) : PResult × List Event :=
  let r := fn f
  if r.1 then
    let res := k r.2
    (res.1, (s, f) :: res.2)
  else
    (PResult.fail r.2, [(s, f)])

/-- The unchecked calibration-service update call (line 324 and line 345):
`frame->calibration_service->Update(frame);` — the reported success flag is
discarded by the caller.  A null service pointer here would be a fatal
dereference. -/
def calibUpdateStep (f : Frame) (k : Frame → PResult × List Event) :
    PResult × List Event :=
  match f.calibrationService with
  | none => (PResult.abort, [])
  | some svc =>
    let r := svc.update f.sensorName f.laneObjects
    let f2 := { f with calibrationService := some r.2 }
    let res := k f2
    (res.1, (Stage.calibUpdate, f) :: res.2)

/-- Lines 395-398: stamp every detected object with the frame's sensor
identity (`camera_supplement.sensor_name = data_provider->sensor_name()`). -/
def stampDetected (f : Frame) : Frame :=
  { f with detectedObjects :=
      f.detectedObjects.map (fun o => { o with sensorName := f.sensorName }) }

/-- Modelled from the spec: `FillObjectPolygonFromBBox3D` (defined outside
this file, in `camera/common/util`) derives the object's 2D polygon footprint
from its 3D bounding geometry — the four ground-plane corners of the bounding
box. -/
def FillObjectPolygonFromBBox3D (o : Obj) : Obj :=
  let cx := o.center.1
  let cy := o.center.2.1
  let hx := o.size.1 / 2
  let hy := o.size.2.1 / 2
  { o with polygon :=
      [(cx - hx, cy - hy), (cx - hx, cy + hy),
       (cx + hx, cy + hy), (cx + hx, cy - hy)] }

/-- Lines 449-453: for every tracked object, fill its polygon from the 3D
bounding box and then set its anchor point equal to its center. -/
def normalizeTracked (f : Frame) : Frame :=
  { f with trackedObjects :=
      f.trackedObjects.map (fun o =>
        let o2 := FillObjectPolygonFromBBox3D o
        { o2 with anchorPoint := o2.center }) }

/-- What a `BaseObstacleTracker` instance provides: Predict, Associate2D,
Associate3D, Track. -/
structure TrackerImpl where
  predict : StageFn
  associate2D : StageFn
  associate3D : StageFn
  track : StageFn

/-- What a `BaseLanePostprocessor` instance provides: Process2D, Process3D. -/
structure LanePostImpl where
  process2D : StageFn
  process3D : StageFn

/-- `ObstacleTrackerInitOptions` (what the tracker's `Init` receives). -/
structure TrackerInitOptions where
  imageWidth : Nat
  imageHeight : Nat
  gpuId : Nat
  rootDir : String
  confFile : String
deriving DecidableEq, Repr

/-- The initialized perception object: the per-sensor maps, the resolved
stage instances and the calibration-relevant configuration, as set up by
`ObstacleCameraPerception::Init`.  `trackerInitOptions` records the options
the tracker instance was constructed and initialized with. -/
structure Pipeline where
  nameIntrinsicMap : List (String × Mat3)
  nameDetectorMap : List (String × StageFn)
  laneCalibrationWorkingSensorName : String
  laneDetector : StageFn
  lanePostprocessor : LanePostImpl
  tracker : TrackerImpl
  trackerInitOptions : TrackerInitOptions
  transformer : StageFn
  obstaclePostprocessor : Bool → StageFn
  extractor : Option StageFn
  calibrationService : Option CalibService

/-- Line 431-436 (Track) followed by the terminal normalization loop
(lines 449-453) and `return true`. -/
def trackStep (p : Pipeline) (f : Frame) : PResult × List Event :=
  runStage Stage.track p.tracker.track f
    (fun f9 => (PResult.ok (normalizeTracked f9), []))

/-- Line 424-429: Associate3D, then the rest. -/
def associate3DStep (p : Pipeline) (f : Frame) : PResult × List Event :=
  runStage Stage.associate3D p.tracker.associate3D f (trackStep p)

/-- Lines 413-420: the obstacle postprocessor, handed
`do_refinement_with_calibration_service = (frame->calibration_service !=
nullptr)` computed from the current frame, then the rest. -/
def postprocessStep (p : Pipeline) (f : Frame) : PResult × List Event :=
  runStage Stage.postprocess
    (p.obstaclePostprocessor f.calibrationService.isSome) f
    (associate3DStep p)

/-- Lines 406-411: 3D transform, then the rest. -/
def transformStep (p : Pipeline) (f : Frame) : PResult × List Event :=
  runStage Stage.transform p.transformer f (postprocessStep p)

/-- Lines 394-404: stamp each detected object with the frame's sensor name,
then Associate2D, then the rest. -/
def associate2DStep (p : Pipeline) (f : Frame) : PResult × List Event :=
  runStage Stage.associate2D p.tracker.associate2D (stampDetected f)
    (transformStep p)

/-- Lines 380-385: if a feature extractor is configured run it (failure
aborts); absence is a silent skip. -/
def extractStep (p : Pipeline) (f : Frame) : PResult × List Event :=
  match p.extractor with
  | none => associate2DStep p f
  | some ex => runStage Stage.extract ex f (associate2DStep p)

/-- Lines 365-373: resolve this frame's per-sensor detector with
`name_detector_map_.at` (throws on an unknown sensor), run Detect, then the
rest. -/
def detectStep (p : Pipeline) (f : Frame) : PResult × List Event :=
  match mapFind p.nameDetectorMap f.sensorName with
  | none => (PResult.unknownSensor, [])
  | some det => runStage Stage.detect det f (extractStep p)

/-- Lines 358-453: the obstacle part of the pipeline, starting with the
tracker's Predict. -/
def obstacleStages (p : Pipeline) (f : Frame) : PResult × List Event :=
  runStage Stage.trackerPredict p.tracker.predict f (detectStep p)

/-- Lines 307-340: the calibration-working-sensor branch — lane detection,
lane 2D postprocessing, the (unchecked) fresh calibration update, lane 3D
postprocessing, then the obstacle stages. -/
def laneBranch (p : Pipeline) (f : Frame) : PResult × List Event :=
  runStage Stage.laneDetect p.laneDetector f (fun f1 =>
    runStage Stage.lanePost2D p.lanePostprocessor.process2D f1 (fun f2 =>
      calibUpdateStep f2 (fun f3 =>
        runStage Stage.lanePost3D p.lanePostprocessor.process3D f3
          (obstacleStages p))))

/-- Lines 300-301: `frame->camera_k_matrix = name_intrinsic_map_.at(...)`
(the successful-lookup case). -/
def withK (f : Frame) (km : Mat3) : Frame :=
  { f with cameraKMatrix := some km }

/-- `ObstacleCameraPerception::Perception` (lines 290-455).  Resolve the
frame's intrinsic matrix from the sensor map (`std::map::at`, throws on an
unknown sensor), `CHECK` the calibration-service pointer, branch on whether
the frame's sensor is the calibration working sensor, then run the obstacle
stages.  Debug-artifact writes (`WriteLanelines`, `WriteCalibrationOutput`,
`WriteDetections`, `WriteCamera2World`, `WriteTracking`) touch only files and
are omitted. -/
def Perception (p : Pipeline) (f0 : Frame) : PResult × List Event :=
  match mapFind p.nameIntrinsicMap f0.sensorName with
  | none => (PResult.unknownSensor, [])
  | some km =>
    match (withK f0 km).calibrationService with
    | none => (PResult.abort, [])
    | some _ =>
      if p.laneCalibrationWorkingSensorName = f0.sensorName then
        laneBranch p (withK f0 km)
      else
        calibUpdateStep (withK f0 km) (obstacleStages p)

/-- `ObstacleCameraPerception::GetCalibrationService` (lines 284-288): write
the internal `calibration_service_` member (null before `Init`) into the
out-parameter and return `true` unconditionally. -/
def GetCalibrationService (calibrationServiceMember : Option CalibService) :
    Bool × Option CalibService :=
  (true, calibrationServiceMember)

/-- The stage labels of a run's trace. -/
def stagesOf (r : PResult × List Event) : List Stage :=
  r.2.map Prod.fst

/-! ## Initialization (`ObstacleCameraPerception::Init`, lines 40-271) -/

/-- A `plugin_param` config block: plugin name, root directory, config file. -/
structure PluginParam where
  name : String
  rootDir : String
  configFile : String
deriving DecidableEq, Repr

/-- A `detector_param` entry: plugin selection plus the camera (sensor) name. -/
structure DetectorParam where
  pluginParam : PluginParam
  cameraName : String
deriving DecidableEq, Repr

/-- The `lane_detector_param` block (its plugin selection). -/
structure LaneDetectorParam where
  pluginParam : PluginParam
deriving DecidableEq, Repr

/-- The `lane_param` block.  `lane_detector_param` presence is `CHECK`ed;
`lane_postprocessor_param` is read directly (proto default when absent). -/
structure LaneParam where
  laneDetectorParam : Option LaneDetectorParam
  lanePostprocessorParam : PluginParam
deriving DecidableEq, Repr

/-- The `calibration_service_param` block. -/
structure CalibrationServiceParam where
  pluginParam : PluginParam
  calibratorMethod : String
deriving DecidableEq, Repr

/-- The validated `app::PerceptionParam` configuration tree (the fields this
translation unit reads; the `debug_param` block only selects debug file sinks
and is omitted). -/
structure PerceptionParam where
  gpuId : Nat
  detectorParams : List DetectorParam
  trackerParam : Option PluginParam
  transformerParam : Option PluginParam
  postprocessorParam : Option PluginParam
  featureParam : Option PluginParam
  laneParam : Option LaneParam
  calibrationServiceParam : Option CalibrationServiceParam
  objectTemplateParam : Option PluginParam

/-- `CameraPerceptionInitOptions`. -/
structure CameraPerceptionInitOptions where
  rootDir : String
  confFile : String
  useCybertronWorkRoot : Bool
  laneCalibrationWorkingSensorName : String
deriving DecidableEq, Repr

/-- A camera model resolved from the sensor manager: image width, height and
intrinsic parameters. -/
structure CameraModel where
  width : Nat
  height : Nat
  intrinsic : Mat3
deriving DecidableEq, Repr

/-- `ObstacleDetectorInitOptions`. -/
structure ObstacleDetectorInitOptions where
  rootDir : String
  confFile : String
  gpuId : Nat
  cameraModel : CameraModel
deriving DecidableEq, Repr

/-- Generic root-dir/conf-file init options (transformer, obstacle
postprocessor, feature extractor). -/
structure PluginInitOptions where
  rootDir : String
  confFile : String
deriving DecidableEq, Repr

/-- `LaneDetectorInitOptions`. -/
structure LaneDetectorInitOptions where
  confFile : String
  rootDir : String
  gpuId : Nat
  cameraModel : CameraModel
deriving DecidableEq, Repr

/-- `LanePostprocessorInitOptions`: the lane detector's resolved config path
is threaded into the postprocessor's options. -/
structure LanePostprocessorInitOptions where
  detectConfigRoot : String
  detectConfigName : String
  rootDir : String
  confFile : String
deriving DecidableEq, Repr

/-- `CalibrationServiceInitOptions`. -/
structure CalibrationServiceInitOptions where
  workingSensorName : String
  nameIntrinsicMap : List (String × Mat3)
  calibratorMethod : String
  imageHeight : Nat
  imageWidth : Nat
deriving DecidableEq, Repr

/-- What a calibration-service plugin provides when constructed: its
calibrator algorithm and the initial corrected geometry. -/
structure CalibServiceImpl where
  recompute : List Nat → Bool × Int
  initialGeometry : Int

/-- The out-of-scope collaborators `Init` calls into: the config reader and
CUDA binding (both `CHECK`ed), the sensor manager (camera-model provider),
path resolution (`lib::FileUtil::GetAbsolutePath`), and per-stage-kind plugin
registries (`GetInstanceByName`, `none` = null instance) together with each
constructed instance's own `Init` outcome. -/
structure InitEnv where
  getProtoOk : Bool
  cudaOk : Bool
  cybertronWorkRoot : String
  getAbsolutePath : String → String → String
  provider : String → CameraModel
  detectorRegistry : String → Option StageFn
  detectorInitOk : String → ObstacleDetectorInitOptions → Bool
  trackerRegistry : String → Option TrackerImpl
  trackerInitOk : String → TrackerInitOptions → Bool
  transformerRegistry : String → Option StageFn
  transformerInitOk : String → PluginInitOptions → Bool
  postprocessorRegistry : String → Option (Bool → StageFn)
  postprocessorInitOk : String → PluginInitOptions → Bool
  extractorRegistry : String → Option StageFn
  extractorInitOk : String → PluginInitOptions → Bool
  laneDetectorRegistry : String → Option StageFn
  laneDetectorInitOk : String → LaneDetectorInitOptions → Bool
  lanePostRegistry : String → Option LanePostImpl
  lanePostInitOk : String → LanePostprocessorInitOptions → Bool
  calibRegistry : String → Option CalibServiceImpl
  calibInitOk : String → CalibrationServiceInitOptions → Bool
  objectTemplateInitOk : String → Bool

/-- The per-detector loop (lines 59-83): for each `detector_param`, resolve
the camera model (reassigning the loop-carried `model` each iteration),
record the intrinsic matrix, construct the named detector (`CHECK`ed non-null)
and `CHECK` its `Init`. -/
def detectorOptsOf (env : InitEnv) (workRoot : String) (gpuId : Nat)
    (dp : DetectorParam) : ObstacleDetectorInitOptions :=
  { rootDir := env.getAbsolutePath workRoot dp.pluginParam.rootDir
    confFile := dp.pluginParam.configFile
    gpuId := gpuId
    cameraModel := env.provider dp.cameraName }

def initDetectors (env : InitEnv) (workRoot : String) (gpuId : Nat) :
    List DetectorParam → List (String × Mat3) → List (String × StageFn) →
    Option CameraModel →
    Option (List (String × Mat3) × List (String × StageFn) ×
            Option CameraModel)
  | [], im, dm, model => some (im, dm, model)
  | dp :: rest, im, dm, _ =>
    match env.detectorRegistry dp.pluginParam.name with
    | none => none
    | some det =>
      if env.detectorInitOk dp.pluginParam.name
          (detectorOptsOf env workRoot gpuId dp) then
        initDetectors env workRoot gpuId rest
          (mapInsert im dp.cameraName (env.provider dp.cameraName).intrinsic)
          (mapInsert dm dp.cameraName det)
          (some (env.provider dp.cameraName))
      else none

/-- Lines 135-150: resolve the optional feature extractor.  A missing
`feature_param` block is not an error (`some none`); a null instance or a
failed extractor `Init` is fatal (`none`). -/
def resolveExtractor (env : InitEnv) (workRoot : String)
    (param : PerceptionParam) : Option (Option StageFn) :=
  match param.featureParam with
  | none => some none
  | some fe =>
    match env.extractorRegistry fe.name with
    | none => none
    | some ex =>
      if env.extractorInitOk fe.name
          { rootDir := env.getAbsolutePath workRoot fe.rootDir
            confFile := fe.configFile } then some (some ex)
      else none

/-- Continuation of `Init` after the obstacle postprocessor: feature
extractor (lines 135-150), working-sensor name (lines 152-153), `InitLane`,
`InitCalibrationService`, object-template manager (lines 174-186). -/
def initAfterPostprocessor (env : InitEnv)
    (options : CameraPerceptionInitOptions) (param : PerceptionParam)
    (workRoot : String) (im : List (String × Mat3))
    (dm : List (String × StageFn)) (model : CameraModel)
    (trackerOpts : TrackerInitOptions) (trk : TrackerImpl)
    (tf : StageFn) (pp : Bool → StageFn) : Option Pipeline :=
  match resolveExtractor env workRoot param with
  | none => none
  | some extractor =>
    match param.laneParam with
    | none => none
    | some lp =>
      match lp.laneDetectorParam with
      | none => none
      | some ldp =>
        match env.laneDetectorRegistry ldp.pluginParam.name with
        | none => none
        | some laneDet =>
          if env.laneDetectorInitOk ldp.pluginParam.name
              { confFile := ldp.pluginParam.configFile
                rootDir :=
                  env.getAbsolutePath workRoot ldp.pluginParam.rootDir
                gpuId := param.gpuId
                cameraModel := model } = false then none
          else
            match env.lanePostRegistry lp.lanePostprocessorParam.name with
            | none => none
            | some lanePost =>
              if env.lanePostInitOk lp.lanePostprocessorParam.name
                  { detectConfigRoot :=
                      env.getAbsolutePath workRoot ldp.pluginParam.rootDir
                    detectConfigName := ldp.pluginParam.configFile
                    rootDir := env.getAbsolutePath workRoot
                      lp.lanePostprocessorParam.rootDir
                    confFile :=
                      lp.lanePostprocessorParam.configFile } = false then
                none
              else
                match param.calibrationServiceParam with
                | none => none
                | some csp =>
                  match env.calibRegistry csp.pluginParam.name with
                  | none => none
                  | some impl =>
                    if env.calibInitOk csp.pluginParam.name
                        { workingSensorName :=
                            options.laneCalibrationWorkingSensorName
                          nameIntrinsicMap := im
                          calibratorMethod := csp.calibratorMethod
                          imageHeight := model.height
                          imageWidth := model.width } = false then none
                    else
                      if (match param.objectTemplateParam with
                          | some otp => !(env.objectTemplateInitOk otp.name)
                          | none => false) then none
                      else
                        some
                          { nameIntrinsicMap := im
                            nameDetectorMap := dm
                            laneCalibrationWorkingSensorName :=
                              options.laneCalibrationWorkingSensorName
                            laneDetector := laneDet
                            lanePostprocessor := lanePost
                            tracker := trk
                            trackerInitOptions := trackerOpts
                            transformer := tf
                            obstaclePostprocessor := pp
                            extractor := extractor
                            calibrationService := some
                              { workingSensorName :=
                                  options.laneCalibrationWorkingSensorName
                                recompute := impl.recompute
                                state :=
                                  { correctedGeometry :=
                                      impl.initialGeometry } } }

/-- `ObstacleCameraPerception::Init` (lines 40-188) together with `InitLane`
(lines 190-243) and `InitCalibrationService` (lines 245-271).  Every `CHECK`
failure (missing required block, null plugin instance, failed stage `Init`)
makes the whole initialization fail (`none`).  A missing `feature_param` is
not an error: the extractor is left absent.  The debug-sink block (lines
162-172) only opens output files and is omitted. -/
def workRootOf (env : InitEnv)
    (options : CameraPerceptionInitOptions) : String :=
  if options.useCybertronWorkRoot then env.cybertronWorkRoot else ""

def trackerOptsOf (env : InitEnv) (workRoot : String) (gpuId : Nat)
    (tp : PluginParam) (model : CameraModel) : TrackerInitOptions :=
  { imageWidth := model.width
    imageHeight := model.height
    gpuId := gpuId
    rootDir := env.getAbsolutePath workRoot tp.rootDir
    confFile := tp.configFile }

def Init (env : InitEnv) (options : CameraPerceptionInitOptions)
    (param : PerceptionParam) : Option Pipeline :=
  if env.getProtoOk = false then none
  else if env.cudaOk = false then none
  else if param.detectorParams.isEmpty then none
  else
    match initDetectors env (workRootOf env options) param.gpuId
        param.detectorParams [] [] none with
    | none => none
    | some (im, dm, modelOpt) =>
      match modelOpt with
      | none => none
      | some model =>
        match param.trackerParam with
        | none => none
        | some tp =>
          match env.trackerRegistry tp.name with
          | none => none
          | some trk =>
            if env.trackerInitOk tp.name
                (trackerOptsOf env (workRootOf env options) param.gpuId tp
                  model) = false then none
            else
              match param.transformerParam with
              | none => none
              | some fp =>
                match env.transformerRegistry fp.name with
                | none => none
                | some tf =>
                  if env.transformerInitOk fp.name
                      { rootDir := env.getAbsolutePath
                          (workRootOf env options) fp.rootDir
                        confFile := fp.configFile } = false then none
                  else
                    match param.postprocessorParam with
                    | none => none
                    | some pq =>
                      match env.postprocessorRegistry pq.name with
                      | none => none
                      | some pp =>
                        if env.postprocessorInitOk pq.name
                            { rootDir := env.getAbsolutePath
                                (workRootOf env options) pq.rootDir
                              confFile := pq.configFile } = false then none
                        else
                          initAfterPostprocessor env options param
                            (workRootOf env options) im dm model
                            (trackerOptsOf env (workRootOf env options)
                              param.gpuId tp model) trk tf pp

/-! ## Generic lemmas about the orchestration combinators -/

theorem runStage_mem {s : Stage} {fn : StageFn} {f : Frame}
    {k : Frame → PResult × List Event} {e : Event}
    (h : e ∈ (runStage s fn f k).2) :
    e = (s, f) ∨ ((fn f).1 = true ∧ e ∈ (k (fn f).2).2) := by
  unfold runStage at h
  by_cases hb : (fn f).1 = true
  · simp only [hb, if_true, List.mem_cons] at h
    rcases h with h | h
    · exact Or.inl h
    · exact Or.inr ⟨hb, h⟩
  · simp only [hb, if_false, Bool.false_eq_true, List.mem_singleton] at h
    exact Or.inl h

theorem runStage_fst_true {s : Stage} {fn : StageFn} {f : Frame}
    {k : Frame → PResult × List Event} (h : (fn f).1 = true) :
    (runStage s fn f k).1 = (k (fn f).2).1 := by
  unfold runStage
  simp only [h, if_true]

theorem runStage_fst_false {s : Stage} {fn : StageFn} {f : Frame}
    {k : Frame → PResult × List Event} (h : (fn f).1 = false) :
    runStage s fn f k = (PResult.fail (fn f).2, [(s, f)]) := by
  unfold runStage
  simp only [h, Bool.false_eq_true, if_false]

theorem runStage_ok {s : Stage} {fn : StageFn} {f : Frame}
    {k : Frame → PResult × List Event} {g : Frame}
    (h : (runStage s fn f k).1 = PResult.ok g) :
    (fn f).1 = true ∧ (k (fn f).2).1 = PResult.ok g := by
  unfold runStage at h
  by_cases hb : (fn f).1 = true
  · simp only [hb, if_true] at h
    exact ⟨hb, h⟩
  · simp only [hb, Bool.false_eq_true, if_false] at h
    exact absurd h (by simp)

/-- The frame as left by the unchecked calibration-service update call. -/
def updatedFrame (f : Frame) (svc : CalibService) : Frame :=
  { f with
      calibrationService := some (svc.update f.sensorName f.laneObjects).2 }

theorem calibUpdateStep_some {f : Frame} {svc : CalibService}
    {k : Frame → PResult × List Event} (h : f.calibrationService = some svc) :
    calibUpdateStep f k =
      ((k (updatedFrame f svc)).1,
       (Stage.calibUpdate, f) :: (k (updatedFrame f svc)).2) := by
  unfold calibUpdateStep updatedFrame
  rw [h]

theorem calibUpdateStep_mem {f : Frame} {k : Frame → PResult × List Event}
    {e : Event} (h : e ∈ (calibUpdateStep f k).2) :
    e = (Stage.calibUpdate, f) ∨
    ∃ svc, f.calibrationService = some svc ∧
      e ∈ (k (updatedFrame f svc)).2 := by
  unfold calibUpdateStep at h
  cases hc : f.calibrationService with
  | none => rw [hc] at h; simp at h
  | some svc =>
    rw [hc] at h
    simp only [List.mem_cons] at h
    rcases h with h | h
    · exact Or.inl h
    · exact Or.inr ⟨svc, rfl, h⟩

theorem calibUpdateStep_ok {f : Frame} {k : Frame → PResult × List Event}
    {g : Frame} (h : (calibUpdateStep f k).1 = PResult.ok g) :
    ∃ svc, f.calibrationService = some svc ∧
      (k (updatedFrame f svc)).1 = PResult.ok g := by
  unfold calibUpdateStep at h
  cases hc : f.calibrationService with
  | none => rw [hc] at h; exact absurd h (by simp)
  | some svc => rw [hc] at h; exact ⟨svc, rfl, h⟩

theorem stampDetected_calib (f : Frame) :
    (stampDetected f).calibrationService = f.calibrationService := rfl

theorem stampDetected_sensor (f : Frame) :
    (stampDetected f).sensorName = f.sensorName := rfl

theorem stampDetected_stamped (f : Frame) :
    ∀ o ∈ (stampDetected f).detectedObjects,
      o.sensorName = (stampDetected f).sensorName := by
  intro o ho
  simp only [stampDetected, List.mem_map] at ho
  obtain ⟨o0, _, rfl⟩ := ho
  rfl

/-! ## Which stages the obstacle part of the pipeline can emit -/

theorem mem_obstacleStages_label {p : Pipeline} {f : Frame} {e : Event}
    (h : e ∈ (obstacleStages p f).2) :
    e.1 = Stage.trackerPredict ∨ e.1 = Stage.detect ∨
    e.1 = Stage.extract ∨ e.1 = Stage.associate2D ∨
    e.1 = Stage.transform ∨ e.1 = Stage.postprocess ∨
    e.1 = Stage.associate3D ∨ e.1 = Stage.track := by
  unfold obstacleStages at h
  rcases runStage_mem h with rfl | ⟨_, h⟩
  · exact Or.inl rfl
  · unfold detectStep at h
    cases hd : mapFind p.nameDetectorMap
        ((p.tracker.predict f).2).sensorName with
    | none => rw [hd] at h; simp at h
    | some det =>
      rw [hd] at h
      rcases runStage_mem h with rfl | ⟨_, h⟩
      · exact Or.inr (Or.inl rfl)
      · unfold extractStep at h
        have hrest : ∀ {f1 : Frame}, e ∈ (associate2DStep p f1).2 →
            e.1 = Stage.trackerPredict ∨ e.1 = Stage.detect ∨
            e.1 = Stage.extract ∨ e.1 = Stage.associate2D ∨
            e.1 = Stage.transform ∨ e.1 = Stage.postprocess ∨
            e.1 = Stage.associate3D ∨ e.1 = Stage.track := by
          intro f1 h1
          unfold associate2DStep at h1
          rcases runStage_mem h1 with rfl | ⟨_, h1⟩
          · exact Or.inr (Or.inr (Or.inr (Or.inl rfl)))
          · unfold transformStep at h1
            rcases runStage_mem h1 with rfl | ⟨_, h1⟩
            · exact Or.inr (Or.inr (Or.inr (Or.inr (Or.inl rfl))))
            · unfold postprocessStep at h1
              rcases runStage_mem h1 with rfl | ⟨_, h1⟩
              · exact Or.inr (Or.inr (Or.inr (Or.inr (Or.inr (Or.inl rfl)))))
              · unfold associate3DStep at h1
                rcases runStage_mem h1 with rfl | ⟨_, h1⟩
                · exact Or.inr (Or.inr (Or.inr (Or.inr (Or.inr (Or.inr
                    (Or.inl rfl))))))
                · unfold trackStep at h1
                  rcases runStage_mem h1 with rfl | ⟨_, h1⟩
                  · exact Or.inr (Or.inr (Or.inr (Or.inr (Or.inr (Or.inr
                      (Or.inr rfl))))))
                  · simp at h1
        cases hx : p.extractor with
        | none => rw [hx] at h; exact hrest h
        | some ex =>
          rw [hx] at h
          rcases runStage_mem h with rfl | ⟨_, h⟩
          · exact Or.inr (Or.inr (Or.inl rfl))
          · exact hrest h

/-- Every trace event of `Perception` arises after a successful intrinsic-map
lookup and calibration-service `CHECK`, from either the lane branch (working
sensor) or the direct-update branch (other sensors). -/
theorem perception_mem {p : Pipeline} {f0 : Frame} {e : Event}
    (h : e ∈ (Perception p f0).2) :
    ∃ km, mapFind p.nameIntrinsicMap f0.sensorName = some km ∧
      (withK f0 km).calibrationService.isSome = true ∧
      ((p.laneCalibrationWorkingSensorName = f0.sensorName ∧
          e ∈ (laneBranch p (withK f0 km)).2) ∨
       (p.laneCalibrationWorkingSensorName ≠ f0.sensorName ∧
          e ∈ (calibUpdateStep (withK f0 km) (obstacleStages p)).2)) := by
  unfold Perception at h
  split at h
  · simp at h
  · rename_i km hm
    split at h
    · simp at h
    · rename_i svc hc
      refine ⟨km, hm, by rw [hc]; rfl, ?_⟩
      split at h
      · rename_i hw
        exact Or.inl ⟨hw, h⟩
      · rename_i hw
        exact Or.inr ⟨hw, h⟩

/-- The lane branch emits only the four lane sub-stage events before handing
over to the obstacle stages. -/
theorem laneBranch_mem {p : Pipeline} {f : Frame} {e : Event}
    (h : e ∈ (laneBranch p f).2) :
    e.1 = Stage.laneDetect ∨ e.1 = Stage.lanePost2D ∨
    e.1 = Stage.calibUpdate ∨ e.1 = Stage.lanePost3D ∨
    ∃ f4, e ∈ (obstacleStages p f4).2 := by
  unfold laneBranch at h
  rcases runStage_mem h with rfl | ⟨_, h⟩
  · exact Or.inl rfl
  · rcases runStage_mem h with rfl | ⟨_, h⟩
    · exact Or.inr (Or.inl rfl)
    · rcases calibUpdateStep_mem h with rfl | ⟨svc, _, h⟩
      · exact Or.inr (Or.inr (Or.inl rfl))
      · rcases runStage_mem h with rfl | ⟨_, h⟩
        · exact Or.inr (Or.inr (Or.inr (Or.inl rfl)))
        · exact Or.inr (Or.inr (Or.inr (Or.inr ⟨_, h⟩)))

/-- Any `associate2D` event of the obstacle stages carries the stamped frame:
the event's frame is `stampDetected` of the frame after extraction. -/
theorem obstacleStages_assoc2D {p : Pipeline} {f g : Frame}
    (h : (Stage.associate2D, g) ∈ (obstacleStages p f).2) :
    ∃ f1, g = stampDetected f1 := by
  unfold obstacleStages at h
  rcases runStage_mem h with he | ⟨_, h⟩
  · simp at he
  · unfold detectStep at h
    cases hd : mapFind p.nameDetectorMap
        ((p.tracker.predict f).2).sensorName with
    | none => rw [hd] at h; simp at h
    | some det =>
      rw [hd] at h
      rcases runStage_mem h with he | ⟨_, h⟩
      · simp at he
      · have hrest : ∀ {f1 : Frame},
            (Stage.associate2D, g) ∈ (associate2DStep p f1).2 →
            ∃ f2, g = stampDetected f2 := by
          intro f1 h1
          unfold associate2DStep at h1
          rcases runStage_mem h1 with he | ⟨_, h1⟩
          · exact ⟨f1, (Prod.ext_iff.mp he).2⟩
          · unfold transformStep at h1
            rcases runStage_mem h1 with he | ⟨_, h1⟩
            · simp at he
            · unfold postprocessStep at h1
              rcases runStage_mem h1 with he | ⟨_, h1⟩
              · simp at he
              · unfold associate3DStep at h1
                rcases runStage_mem h1 with he | ⟨_, h1⟩
                · simp at he
                · unfold trackStep at h1
                  rcases runStage_mem h1 with he | ⟨_, h1⟩
                  · simp at he
                  · simp at h1
        unfold extractStep at h
        cases hx : p.extractor with
        | none => rw [hx] at h; exact hrest h
        | some ex =>
          rw [hx] at h
          rcases runStage_mem h with he | ⟨_, h⟩
          · simp at he
          · exact hrest h

/-! ## Success implies reaching the terminal normalization -/

theorem associate2DStep_ok {p : Pipeline} {f g : Frame}
    (h : (associate2DStep p f).1 = PResult.ok g) :
    ∃ f9, g = normalizeTracked f9 := by
  unfold associate2DStep at h
  obtain ⟨_, h⟩ := runStage_ok h
  unfold transformStep at h
  obtain ⟨_, h⟩ := runStage_ok h
  unfold postprocessStep at h
  obtain ⟨_, h⟩ := runStage_ok h
  unfold associate3DStep at h
  obtain ⟨_, h⟩ := runStage_ok h
  unfold trackStep at h
  obtain ⟨_, h⟩ := runStage_ok h
  simp only [PResult.ok.injEq] at h
  exact ⟨_, h.symm⟩

theorem obstacleStages_ok {p : Pipeline} {f g : Frame}
    (h : (obstacleStages p f).1 = PResult.ok g) :
    ∃ f9, g = normalizeTracked f9 := by
  unfold obstacleStages at h
  obtain ⟨_, h⟩ := runStage_ok h
  unfold detectStep at h
  cases hd : mapFind p.nameDetectorMap
      ((p.tracker.predict f).2).sensorName with
  | none => rw [hd] at h; exact absurd h (by simp)
  | some det =>
    rw [hd] at h
    obtain ⟨_, h⟩ := runStage_ok h
    unfold extractStep at h
    cases hx : p.extractor with
    | none => rw [hx] at h; exact associate2DStep_ok h
    | some ex =>
      rw [hx] at h
      obtain ⟨_, h⟩ := runStage_ok h
      exact associate2DStep_ok h

/-- A successful `Perception` run ends in the terminal normalization loop:
the returned frame is `normalizeTracked` of the frame after tracking. -/
theorem perception_ok {p : Pipeline} {f0 g : Frame}
    (h : (Perception p f0).1 = PResult.ok g) :
    ∃ f9, g = normalizeTracked f9 := by
  unfold Perception at h
  split at h
  · exact absurd h (by simp)
  · split at h
    · exact absurd h (by simp)
    · split at h
      · unfold laneBranch at h
        obtain ⟨_, h⟩ := runStage_ok h
        obtain ⟨_, h⟩ := runStage_ok h
        obtain ⟨svc2, _, h⟩ := calibUpdateStep_ok h
        obtain ⟨_, h⟩ := runStage_ok h
        exact obstacleStages_ok h
      · obtain ⟨svc2, _, h⟩ := calibUpdateStep_ok h
        exact obstacleStages_ok h

/-! ## The calibration-service pointer along the pipeline -/

/-- Interface assumption on a stage implementation: a successful stage run
does not null the frame's calibration-service pointer (no stage reassigns
`frame->calibration_service`). -/
def PreservesCalib (fn : StageFn) : Prop :=
  ∀ f, (fn f).1 = true → f.calibrationService.isSome = true →
    (fn f).2.calibrationService.isSome = true

/-- All stage implementations resolved into a pipeline preserve the
calibration-service pointer. -/
def PipelinePreservesCalib (p : Pipeline) : Prop :=
  PreservesCalib p.laneDetector ∧
  PreservesCalib p.lanePostprocessor.process2D ∧
  PreservesCalib p.lanePostprocessor.process3D ∧
  PreservesCalib p.tracker.predict ∧
  (∀ s fn, mapFind p.nameDetectorMap s = some fn → PreservesCalib fn) ∧
  (∀ ex, p.extractor = some ex → PreservesCalib ex) ∧
  PreservesCalib p.tracker.associate2D ∧
  PreservesCalib p.transformer

theorem obstacleStages_postprocess_calib {p : Pipeline} {f g : Frame}
    (hp : PipelinePreservesCalib p) (hf : f.calibrationService.isSome = true)
    (h : (Stage.postprocess, g) ∈ (obstacleStages p f).2) :
    g.calibrationService.isSome = true := by
  obtain ⟨-, -, -, hpred, hdet, hext, hassoc, htrans⟩ := hp
  unfold obstacleStages at h
  rcases runStage_mem h with he | ⟨hb, h⟩
  · simp at he
  · have hf1 : ((p.tracker.predict f).2).calibrationService.isSome = true :=
      hpred f hb hf
    unfold detectStep at h
    cases hd : mapFind p.nameDetectorMap
        ((p.tracker.predict f).2).sensorName with
    | none => rw [hd] at h; simp at h
    | some det =>
      rw [hd] at h
      rcases runStage_mem h with he | ⟨hb2, h⟩
      · simp at he
      · have hf2 := (hdet _ _ hd) _ hb2 hf1
        have hrest : ∀ {f1 : Frame}, f1.calibrationService.isSome = true →
            (Stage.postprocess, g) ∈ (associate2DStep p f1).2 →
            g.calibrationService.isSome = true := by
          intro f1 hf3 h1
          unfold associate2DStep at h1
          rcases runStage_mem h1 with he | ⟨hb3, h1⟩
          · simp at he
          · have hf4 : ((p.tracker.associate2D
                (stampDetected f1)).2).calibrationService.isSome = true := by
              apply hassoc _ hb3
              rw [stampDetected_calib]
              exact hf3
            unfold transformStep at h1
            rcases runStage_mem h1 with he | ⟨hb4, h1⟩
            · simp at he
            · have hf5 := htrans _ hb4 hf4
              unfold postprocessStep at h1
              rcases runStage_mem h1 with he | ⟨hb5, h1⟩
              · injection he with he1 he2
                rw [he2]
                exact hf5
              · unfold associate3DStep at h1
                rcases runStage_mem h1 with he | ⟨_, h1⟩
                · simp at he
                · unfold trackStep at h1
                  rcases runStage_mem h1 with he | ⟨_, h1⟩
                  · simp at he
                  · simp at h1
        unfold extractStep at h
        cases hx : p.extractor with
        | none => rw [hx] at h; exact hrest hf2 h
        | some ex =>
          rw [hx] at h
          rcases runStage_mem h with he | ⟨hb3, h⟩
          · simp at he
          · exact hrest ((hext ex hx) _ hb3 hf2) h

theorem laneBranch_postprocess_calib {p : Pipeline} {f g : Frame}
    (hp : PipelinePreservesCalib p)
    (h : (Stage.postprocess, g) ∈ (laneBranch p f).2) :
    g.calibrationService.isSome = true := by
  unfold laneBranch at h
  rcases runStage_mem h with he | ⟨hb, h⟩
  · simp at he
  · rcases runStage_mem h with he | ⟨hb2, h⟩
    · simp at he
    · rcases calibUpdateStep_mem h with he | ⟨svc, hsvc, h⟩
      · simp at he
      · rcases runStage_mem h with he | ⟨hb3, h⟩
        · simp at he
        · have hfu : (updatedFrame
              ((p.lanePostprocessor.process2D
                (p.laneDetector f).2).2) svc).calibrationService.isSome
              = true := rfl
          exact obstacleStages_postprocess_calib hp
            (hp.2.2.1 _ hb3 hfu) h

/-! ## Inversion lemmas about initialization -/

/-- The loop-carried camera model after the per-detector loop is the one
resolved for the last detector parameter (or the initial value when the list
is empty). -/
theorem initDetectors_model (env : InitEnv) (wr : String) (gpu : Nat) :
    ∀ (params : List DetectorParam) (im : List (String × Mat3))
      (dm : List (String × StageFn)) (m0 : Option CameraModel) res,
      initDetectors env wr gpu params im dm m0 = some res →
      res.2.2 = (match params.getLast? with
                 | none => m0
                 | some d => some (env.provider d.cameraName)) := by
  intro params
  induction params with
  | nil =>
    intro im dm m0 res h
    unfold initDetectors at h
    injection h with h
    rw [← h]
    rfl
  | cons d rest ih =>
    intro im dm m0 res h
    unfold initDetectors at h
    split at h
    · exact absurd h (by simp)
    · split at h
      · have hrec := ih _ _ _ _ h
        rw [hrec]
        cases rest with
        | nil => rfl
        | cons e t =>
          rw [List.getLast?_cons_cons]
          cases hl : (e :: t).getLast? with
          | none => exact absurd hl (by simp [List.getLast?_eq_none_iff])
          | some x => rfl
      · exact absurd h (by simp)

/-- Whatever `initAfterPostprocessor` returns records the tracker init
options it was given, and a missing feature block leaves the extractor
absent. -/
theorem initAfterPostprocessor_spec {env : InitEnv}
    {opts : CameraPerceptionInitOptions} {param : PerceptionParam}
    {workRoot : String} {im : List (String × Mat3)}
    {dm : List (String × StageFn)} {model : CameraModel}
    {trackerOpts : TrackerInitOptions} {trk : TrackerImpl} {tf : StageFn}
    {pp : Bool → StageFn} {p : Pipeline}
    (h : initAfterPostprocessor env opts param workRoot im dm model
          trackerOpts trk tf pp = some p) :
    p.trackerInitOptions = trackerOpts ∧ p.nameDetectorMap = dm ∧
      (param.featureParam = none → p.extractor = none) := by
  unfold initAfterPostprocessor at h
  split at h
  · exact absurd h (by simp)
  · rename_i extractor hex
    split at h
    · exact absurd h (by simp)
    · rename_i lp
      split at h
      · exact absurd h (by simp)
      · rename_i ldp
        split at h
        · exact absurd h (by simp)
        · rename_i laneDet hreg
          split at h
          · exact absurd h (by simp)
          · split at h
            · exact absurd h (by simp)
            · rename_i lanePost hreg2
              split at h
              · exact absurd h (by simp)
              · split at h
                · exact absurd h (by simp)
                · rename_i csp
                  split at h
                  · exact absurd h (by simp)
                  · rename_i impl hcr
                    split at h
                    · exact absurd h (by simp)
                    · split at h
                      · exact absurd h (by simp)
                      · injection h with h
                        subst h
                        refine ⟨rfl, rfl, ?_⟩
                        intro hf
                        unfold resolveExtractor at hex
                        rw [hf] at hex
                        injection hex with hex
                        exact hex.symm

/-- Inversion of a successful `Init`: the per-detector loop succeeded, the
pipeline's recorded tracker init options take the image dimensions from the
loop's final camera model, and a missing feature block leaves the extractor
absent. -/
theorem Init_spec {env : InitEnv} {opts : CameraPerceptionInitOptions}
    {param : PerceptionParam} {p : Pipeline}
    (h : Init env opts param = some p) :
    ∃ im dm model,
      initDetectors env (workRootOf env opts) param.gpuId
          param.detectorParams [] [] none = some (im, dm, some model) ∧
      p.trackerInitOptions.imageWidth = model.width ∧
      p.trackerInitOptions.imageHeight = model.height ∧
      p.nameDetectorMap = dm ∧
      (param.featureParam = none → p.extractor = none) := by
  unfold Init at h
  split at h
  · exact absurd h (by simp)
  · split at h
    · exact absurd h (by simp)
    · split at h
      · exact absurd h (by simp)
      · split at h
        · exact absurd h (by simp)
        · rename_i res hres
          split at h
          · exact absurd h (by simp)
          · rename_i model
            split at h
            · exact absurd h (by simp)
            · rename_i tp
              split at h
              · exact absurd h (by simp)
              · rename_i trk
                split at h
                · exact absurd h (by simp)
                · split at h
                  · exact absurd h (by simp)
                  · rename_i fp
                    split at h
                    · exact absurd h (by simp)
                    · rename_i tf
                      split at h
                      · exact absurd h (by simp)
                      · split at h
                        · exact absurd h (by simp)
                        · rename_i pq
                          split at h
                          · exact absurd h (by simp)
                          · rename_i pp
                            split at h
                            · exact absurd h (by simp)
                            · obtain ⟨h1, h2, h3⟩ :=
                                initAfterPostprocessor_spec h
                              rename_i hres2
                              exact ⟨_, _, _, hres, by rw [h1]; rfl,
                                     by rw [h1]; rfl, h2, h3⟩

/-! ## Further lemmas used by the claim theorems -/

theorem runStage_true {s : Stage} {fn : StageFn} {f : Frame}
    {k : Frame → PResult × List Event} (h : (fn f).1 = true) :
    runStage s fn f k = ((k (fn f).2).1, (s, f) :: (k (fn f).2).2) := by
  unfold runStage
  simp only [h, if_true]

theorem runStage_self_mem (s : Stage) (fn : StageFn) (f : Frame)
    (k : Frame → PResult × List Event) : (s, f) ∈ (runStage s fn f k).2 := by
  unfold runStage
  by_cases hb : (fn f).1 = true <;> simp [hb]

/-- `Perception` after the intrinsic lookup and the `CHECK`: it is exactly
the sensor-identity branch. -/
theorem Perception_branch_eq (p : Pipeline) (f : Frame) (km : Mat3)
    (svc : CalibService)
    (hm : mapFind p.nameIntrinsicMap f.sensorName = some km)
    (hc : f.calibrationService = some svc) :
    Perception p f =
      if p.laneCalibrationWorkingSensorName = f.sensorName then
        laneBranch p (withK f km)
      else calibUpdateStep (withK f km) (obstacleStages p) := by
  unfold Perception
  have hc2 : (withK f km).calibrationService = some svc := hc
  simp only [hm, hc2]

theorem associate2DStep_label {p : Pipeline} {f : Frame} {e : Event}
    (h : e ∈ (associate2DStep p f).2) :
    e.1 = Stage.associate2D ∨ e.1 = Stage.transform ∨
    e.1 = Stage.postprocess ∨ e.1 = Stage.associate3D ∨
    e.1 = Stage.track := by
  unfold associate2DStep at h
  rcases runStage_mem h with rfl | ⟨_, h⟩
  · exact Or.inl rfl
  · unfold transformStep at h
    rcases runStage_mem h with rfl | ⟨_, h⟩
    · exact Or.inr (Or.inl rfl)
    · unfold postprocessStep at h
      rcases runStage_mem h with rfl | ⟨_, h⟩
      · exact Or.inr (Or.inr (Or.inl rfl))
      · unfold associate3DStep at h
        rcases runStage_mem h with rfl | ⟨_, h⟩
        · exact Or.inr (Or.inr (Or.inr (Or.inl rfl)))
        · unfold trackStep at h
          rcases runStage_mem h with rfl | ⟨_, h⟩
          · exact Or.inr (Or.inr (Or.inr (Or.inr rfl)))
          · simp at h

/-- With no extractor configured, the obstacle stages never emit an
`extract` event. -/
theorem obstacleStages_no_extract {p : Pipeline} {f g : Frame}
    (hx : p.extractor = none)
    (h : (Stage.extract, g) ∈ (obstacleStages p f).2) : False := by
  unfold obstacleStages at h
  rcases runStage_mem h with he | ⟨_, h⟩
  · simp at he
  · unfold detectStep at h
    cases hd : mapFind p.nameDetectorMap
        ((p.tracker.predict f).2).sensorName with
    | none => rw [hd] at h; simp at h
    | some det =>
      rw [hd] at h
      rcases runStage_mem h with he | ⟨_, h⟩
      · simp at he
      · unfold extractStep at h
        rw [hx] at h
        rcases associate2DStep_label h with hl | hl | hl | hl | hl <;>
          simp at hl

/-- If the extract stage was invoked on frame `g` and the extractor fails
there, the obstacle part returns that failure. -/
theorem obstacleStages_extract_fail {p : Pipeline} {f g : Frame}
    {ex : StageFn} (hx : p.extractor = some ex)
    (h : (Stage.extract, g) ∈ (obstacleStages p f).2)
    (hfail : (ex g).1 = false) :
    (obstacleStages p f).1 = PResult.fail (ex g).2 := by
  unfold obstacleStages at h ⊢
  rcases runStage_mem h with he | ⟨hb, h⟩
  · simp at he
  · rw [runStage_fst_true hb]
    unfold detectStep at h ⊢
    cases hd : mapFind p.nameDetectorMap
        ((p.tracker.predict f).2).sensorName with
    | none => rw [hd] at h; simp at h
    | some det =>
      rw [hd] at h
      rcases runStage_mem h with he | ⟨hb2, h⟩
      · simp at he
      · rw [runStage_fst_true hb2]
        unfold extractStep at h ⊢
        simp only [hx] at h ⊢
        rcases runStage_mem h with he | ⟨hb3, h⟩
        · injection he with he1 he2
          rw [he2] at hfail
          rw [he2, runStage_fst_false hfail]
        · rcases associate2DStep_label h with hl | hl | hl | hl | hl <;>
            simp at hl

/-- `obstacleStages_extract_fail`, lifted over the lane branch. -/
theorem laneBranch_extract_fail {p : Pipeline} {f g : Frame} {ex : StageFn}
    (hx : p.extractor = some ex)
    (h : (Stage.extract, g) ∈ (laneBranch p f).2)
    (hfail : (ex g).1 = false) :
    (laneBranch p f).1 = PResult.fail (ex g).2 := by
  unfold laneBranch at h ⊢
  rcases runStage_mem h with he | ⟨hb, h⟩
  · simp at he
  · rw [runStage_fst_true hb]
    rcases runStage_mem h with he | ⟨hb2, h⟩
    · simp at he
    · rw [runStage_fst_true hb2]
      rcases calibUpdateStep_mem h with he | ⟨svc, hsvc, h⟩
      · simp at he
      · rw [calibUpdateStep_some hsvc]
        rcases runStage_mem h with he | ⟨hb3, h⟩
        · simp at he
        · show (runStage Stage.lanePost3D _ _ _).1 = _
          rw [runStage_fst_true hb3]
          exact obstacleStages_extract_fail hx h hfail

/-! ## Concrete instantiations used by the witness theorems -/

/-- A trivially succeeding stage oracle that leaves the frame unchanged. -/
def idStage : StageFn := fun f => (true, f)

def sTracker : TrackerImpl :=
  { predict := idStage
    associate2D := idStage
    associate3D := idStage
    track := idStage }

def sSvc : CalibService :=
  { workingSensorName := "camA"
    recompute := fun _ => (true, 3)
    state := { correctedGeometry := 1 } }

def sObj : Obj :=
  { center := (1, 2, 3)
    anchorPoint := (0, 0, 0)
    size := (4, 6, 2)
    polygon := []
    sensorName := "" }

def sFrame (sn : String) : Frame :=
  { sensorName := sn
    frameId := 0
    cameraKMatrix := none
    laneObjects := [7]
    detectedObjects := [sObj]
    trackedObjects := [sObj]
    calibrationService := some sSvc }

def sPipe : Pipeline :=
  { nameIntrinsicMap := [("camA", { val := 10 }), ("camB", { val := 11 })]
    nameDetectorMap := [("camA", idStage), ("camB", idStage)]
    laneCalibrationWorkingSensorName := "camA"
    laneDetector := idStage
    lanePostprocessor := { process2D := idStage, process3D := idStage }
    tracker := sTracker
    trackerInitOptions :=
      { imageWidth := 10, imageHeight := 11, gpuId := 0,
        rootDir := "", confFile := "" }
    transformer := idStage
    obstaclePostprocessor := fun _ => idStage
    extractor := none
    calibrationService := some sSvc }

def sCamModelA : CameraModel :=
  { width := 10, height := 11, intrinsic := { val := 10 } }

def sCamModelB : CameraModel :=
  { width := 20, height := 21, intrinsic := { val := 11 } }

def sEnv : InitEnv :=
  { getProtoOk := true
    cudaOk := true
    cybertronWorkRoot := "wr"
    getAbsolutePath := fun r p => r ++ "/" ++ p
    provider := fun n => if n = "camB" then sCamModelB else sCamModelA
    detectorRegistry := fun _ => some idStage
    detectorInitOk := fun _ _ => true
    trackerRegistry := fun _ => some sTracker
    trackerInitOk := fun _ _ => true
    transformerRegistry := fun _ => some idStage
    transformerInitOk := fun _ _ => true
    postprocessorRegistry := fun _ => some (fun _ => idStage)
    postprocessorInitOk := fun _ _ => true
    extractorRegistry := fun _ => some idStage
    extractorInitOk := fun _ _ => true
    laneDetectorRegistry := fun _ => some idStage
    laneDetectorInitOk := fun _ _ => true
    lanePostRegistry := fun _ =>
      some { process2D := idStage, process3D := idStage }
    lanePostInitOk := fun _ _ => true
    calibRegistry := fun _ =>
      some { recompute := fun _ => (true, 3), initialGeometry := 1 }
    calibInitOk := fun _ _ => true
    objectTemplateInitOk := fun _ => true }

def sPluginParam (n : String) : PluginParam :=
  { name := n, rootDir := "r", configFile := "c" }

def sParam : PerceptionParam :=
  { gpuId := 0
    detectorParams :=
      [{ pluginParam := sPluginParam "det", cameraName := "camA" },
       { pluginParam := sPluginParam "det", cameraName := "camB" }]
    trackerParam := some (sPluginParam "trk")
    transformerParam := some (sPluginParam "tf")
    postprocessorParam := some (sPluginParam "pp")
    featureParam := none
    laneParam := some
      { laneDetectorParam := some { pluginParam := sPluginParam "ld" }
        lanePostprocessorParam := sPluginParam "lp" }
    calibrationServiceParam := some
      { pluginParam := sPluginParam "cs", calibratorMethod := "m" }
    objectTemplateParam := none }

def sOpts : CameraPerceptionInitOptions :=
  { rootDir := "rd"
    confFile := "cf"
    useCybertronWorkRoot := false
    laneCalibrationWorkingSensorName := "camA" }

/-- The pipeline produced by the sample initialization. -/
def sInitPipe : Pipeline := (Init sEnv sOpts sParam).getD sPipe

def sSvcFail : CalibService :=
  { workingSensorName := "camA"
    recompute := fun _ => (false, 5)
    state := { correctedGeometry := 1 } }

def sFrameFail : Frame :=
  { sFrame "camA" with calibrationService := some sSvcFail }

def sPipeLaneFail : Pipeline :=
  { sPipe with laneDetector := fun f => (false, f) }

def sStampedB : Frame := stampDetected (withK (sFrame "camB") { val := 11 })

def sStampedObj : Obj := { sObj with sensorName := "camB" }

def sResB : Frame := normalizeTracked sStampedB

def sTrackedObj : Obj :=
  { FillObjectPolygonFromBBox3D sObj with
      anchorPoint := (FillObjectPolygonFromBBox3D sObj).center }

theorem idStage_preserves : PreservesCalib idStage := fun _ _ hs => hs

theorem sPipe_preserves : PipelinePreservesCalib sPipe := by
  refine ⟨idStage_preserves, idStage_preserves, idStage_preserves,
          idStage_preserves, ?_, ?_, idStage_preserves, idStage_preserves⟩
  · intro s fn h
    simp only [sPipe, mapFind] at h
    split at h
    · injection h with h
      rw [← h]
      exact idStage_preserves
    · split at h
      · injection h with h
        rw [← h]
        exact idStage_preserves
      · exact absurd h (by simp)
  · intro ex h
    simp [sPipe] at h

/-! ## The claims -/

/-- C1: for every frame whose sensor differs from the configured calibration
working sensor (and which passes the intrinsic lookup and the
calibration-service CHECK, the service being initialized with that working
sensor), `Perception` invokes none of the lane sub-stages (lane detection,
lane 2D postprocessing, lane 3D postprocessing are absent from the trace), it
calls the Calibration State update directly (first trace event), and that
update is the no-op refresh: it reports success and returns the stored
calibration state — hence the externally-observable corrected geometry —
unchanged. -/
theorem C1_nonworking_skips_lanes_geometry_unchanged (p : Pipeline)
    (f : Frame) (km : Mat3) (svc : CalibService)
    (hm : mapFind p.nameIntrinsicMap f.sensorName = some km)
    (hc : f.calibrationService = some svc)
    (hw : p.laneCalibrationWorkingSensorName ≠ f.sensorName)
    (hsw : svc.workingSensorName = p.laneCalibrationWorkingSensorName) :
    Stage.laneDetect ∉ stagesOf (Perception p f) ∧
    Stage.lanePost2D ∉ stagesOf (Perception p f) ∧
    Stage.lanePost3D ∉ stagesOf (Perception p f) ∧
    (stagesOf (Perception p f)).head? = some Stage.calibUpdate ∧
    svc.update f.sensorName f.laneObjects = (true, svc) := by
  have hupd : svc.update f.sensorName f.laneObjects = (true, svc) := by
    unfold CalibService.update
    rw [if_neg (by rw [hsw]; exact fun hx => hw hx.symm)]
  have heq := Perception_branch_eq p f km svc hm hc
  rw [if_neg hw] at heq
  have hc2 : (withK f km).calibrationService = some svc := hc
  rw [calibUpdateStep_some hc2] at heq
  have hnl : ∀ s, s ∈ stagesOf (Perception p f) → s ≠ Stage.laneDetect ∧
      s ≠ Stage.lanePost2D ∧ s ≠ Stage.lanePost3D := by
    intro s hs
    rw [heq] at hs
    simp only [stagesOf, List.map_cons, List.mem_cons] at hs
    rcases hs with rfl | hs
    · exact ⟨by simp, by simp, by simp⟩
    · obtain ⟨e, he, rfl⟩ := List.mem_map.mp hs
      rcases mem_obstacleStages_label he with hl|hl|hl|hl|hl|hl|hl|hl <;>
        rw [hl] <;> exact ⟨by simp, by simp, by simp⟩
  refine ⟨fun hmem => (hnl _ hmem).1 rfl, fun hmem => (hnl _ hmem).2.1 rfl,
          fun hmem => (hnl _ hmem).2.2 rfl, ?_, hupd⟩
  rw [heq]
  rfl

/-- Witness for C1 at a concrete non-working-sensor frame. -/
theorem C1_witness :
    Stage.laneDetect ∉ stagesOf (Perception sPipe (sFrame "camB")) ∧
    Stage.lanePost2D ∉ stagesOf (Perception sPipe (sFrame "camB")) ∧
    Stage.lanePost3D ∉ stagesOf (Perception sPipe (sFrame "camB")) ∧
    (stagesOf (Perception sPipe (sFrame "camB"))).head? =
      some Stage.calibUpdate ∧
    sSvc.update (sFrame "camB").sensorName (sFrame "camB").laneObjects =
      (true, sSvc) :=
  C1_nonworking_skips_lanes_geometry_unchanged sPipe (sFrame "camB")
    { val := 11 } sSvc rfl rfl (by decide) rfl

/-- C2: for a calibration-working-sensor frame, a lane-detection failure
makes `Perception` return failure with only the lane-detection invocation in
the trace: no obstacle stage (tracker Predict, per-sensor Detect, 2D/3D
association, Track) has been invoked. -/
theorem C2_lane_failure_before_obstacle_stages (p : Pipeline) (f : Frame)
    (km : Mat3) (svc : CalibService)
    (hm : mapFind p.nameIntrinsicMap f.sensorName = some km)
    (hc : f.calibrationService = some svc)
    (hw : p.laneCalibrationWorkingSensorName = f.sensorName)
    (hfail : (p.laneDetector (withK f km)).1 = false) :
    Perception p f =
      (PResult.fail (p.laneDetector (withK f km)).2,
       [(Stage.laneDetect, withK f km)]) := by
  rw [Perception_branch_eq p f km svc hm hc, if_pos hw]
  unfold laneBranch
  exact runStage_fst_false hfail

/-- Witness for C2: a concrete failing lane detector. -/
theorem C2_witness :
    Perception sPipeLaneFail (sFrame "camA") =
      (PResult.fail (withK (sFrame "camA") { val := 10 }),
       [(Stage.laneDetect, withK (sFrame "camA") { val := 10 })]) :=
  C2_lane_failure_before_obstacle_stages sPipeLaneFail (sFrame "camA")
    { val := 10 } sSvc rfl rfl rfl rfl

/-- C3: a frame whose sensor is absent from the sensor-to-intrinsics map
terminates `Perception` with the distinct `unknownSensor` outcome (the
`std::out_of_range` thrown by `map::at` at frame start), with an empty
invocation trace — before any stage has run — and that outcome is
distinguishable from a mid-pipeline stage failure and from success. -/
theorem C3_unknown_sensor_distinct_early (p : Pipeline) (f : Frame)
    (hm : mapFind p.nameIntrinsicMap f.sensorName = none) :
    Perception p f = (PResult.unknownSensor, []) ∧
    (∀ g, PResult.unknownSensor ≠ PResult.fail g) ∧
    (∀ g, PResult.unknownSensor ≠ PResult.ok g) := by
  refine ⟨?_, fun g h => PResult.noConfusion h,
          fun g h => PResult.noConfusion h⟩
  unfold Perception
  rw [hm]

/-- Witness for C3 at a concrete unknown sensor name. -/
theorem C3_witness :
    Perception sPipe (sFrame "camZ") = (PResult.unknownSensor, []) :=
  (C3_unknown_sensor_distinct_early sPipe (sFrame "camZ") rfl).1

/-- C5: after a successful `Perception` return, every tracked object's anchor
point equals its center exactly, and its polygon footprint (derived from the
3D bounding box) is non-empty. -/
theorem C5_anchor_center_polygon_nonempty (p : Pipeline) (f g : Frame)
    (h : (Perception p f).1 = PResult.ok g) :
    ∀ o ∈ g.trackedObjects, o.anchorPoint = o.center ∧ o.polygon ≠ [] := by
  obtain ⟨f9, rfl⟩ := perception_ok h
  intro o ho
  simp only [normalizeTracked, List.mem_map] at ho
  obtain ⟨o0, -, rfl⟩ := ho
  exact ⟨rfl, by simp [FillObjectPolygonFromBBox3D]⟩

/-- Witness for C5 on a concrete successful run with one tracked object. -/
theorem C5_witness :
    sTrackedObj.anchorPoint = sTrackedObj.center ∧
    sTrackedObj.polygon ≠ [] :=
  C5_anchor_center_polygon_nonempty sPipe (sFrame "camB") sResB rfl
    sTrackedObj (List.Mem.head _)

/-- C6: whenever 2D association is invoked, every object in the frame's
detected-objects list carries the frame's sensor identity. -/
theorem C6_stamped_before_associate2D (p : Pipeline) (f g : Frame)
    (h : (Stage.associate2D, g) ∈ (Perception p f).2) :
    ∀ o ∈ g.detectedObjects, o.sensorName = g.sensorName := by
  obtain ⟨km, hm, hcs, hbr | hbr⟩ := perception_mem h
  · rcases laneBranch_mem hbr.2 with h1 | h1 | h1 | h1 | ⟨f4, h1⟩
    · simp at h1
    · simp at h1
    · simp at h1
    · simp at h1
    · obtain ⟨f1, rfl⟩ := obstacleStages_assoc2D h1
      exact stampDetected_stamped f1
  · rcases calibUpdateStep_mem hbr.2 with he | ⟨svc, hsvc, h1⟩
    · simp at he
    · obtain ⟨f1, rfl⟩ := obstacleStages_assoc2D h1
      exact stampDetected_stamped f1

/-- Witness for C6 at the concrete 2D-association event of a sample run. -/
theorem C6_witness : sStampedObj.sensorName = sStampedB.sensorName :=
  C6_stamped_before_associate2D sPipe (sFrame "camB") sStampedB
    (List.Mem.tail _ (List.Mem.tail _ (List.Mem.tail _ (List.Mem.head _))))
    sStampedObj (List.Mem.head _)

/-- C8: a successful initialization constructs the tracker with the image
width and height of the camera model resolved for the last configured
detector parameter. -/
theorem C8_tracker_dims_from_last_sensor (env : InitEnv)
    (opts : CameraPerceptionInitOptions) (param : PerceptionParam)
    (p : Pipeline) (d : DetectorParam)
    (h : Init env opts param = some p)
    (hl : param.detectorParams.getLast? = some d) :
    p.trackerInitOptions.imageWidth = (env.provider d.cameraName).width ∧
    p.trackerInitOptions.imageHeight = (env.provider d.cameraName).height := by
  obtain ⟨im, dm, model, hdet, hwd, hht, -, -⟩ := Init_spec h
  have hmod := initDetectors_model env (workRootOf env opts) param.gpuId
      param.detectorParams [] [] none _ hdet
  rw [hl] at hmod
  simp only at hmod
  injection hmod with hmod
  exact ⟨by rw [hwd, hmod], by rw [hht, hmod]⟩

/-- Witness for C8: two configured sensors; the tracker gets the second
(last) sensor's camera-model dimensions. -/
theorem C8_witness :
    sInitPipe.trackerInitOptions.imageWidth =
        (sEnv.provider "camB").width ∧
    sInitPipe.trackerInitOptions.imageHeight =
        (sEnv.provider "camB").height :=
  C8_tracker_dims_from_last_sensor sEnv sOpts sParam sInitPipe
    { pluginParam := sPluginParam "det", cameraName := "camB" } rfl rfl

/-- C10: `GetCalibrationService` returns `true` unconditionally and writes
the internal calibration-service member (null before a successful `Init`)
into the out-parameter; in particular, on the pre-initialization null member
it returns `true` while handing back the null pointer. -/
theorem C10_getCalibrationService_always_true :
    (∀ s, GetCalibrationService s = (true, s)) ∧
    GetCalibrationService none = (true, none) :=
  ⟨fun _ => rfl, rfl⟩

/-- C4 counterexample: a concrete working-sensor run in which the fresh
calibration update reports failure, yet lane 3D postprocessing still runs and
`Perception` returns success — so the calibration update is not a failure
point that aborts the pipeline. -/
theorem C4_counterexample :
    (sSvcFail.update (sFrameFail.sensorName) (sFrameFail.laneObjects)).1 =
        false ∧
    Stage.lanePost3D ∈ stagesOf (Perception sPipe sFrameFail) ∧
    (Perception sPipe sFrameFail).1 =
      PResult.ok (normalizeTracked (stampDetected
        (updatedFrame (withK sFrameFail { val := 10 }) sSvcFail))) := by
  refine ⟨rfl, ?_, rfl⟩
  have h : stagesOf (Perception sPipe sFrameFail) =
      [Stage.laneDetect, Stage.lanePost2D, Stage.calibUpdate,
       Stage.lanePost3D, Stage.trackerPredict, Stage.detect,
       Stage.associate2D, Stage.transform, Stage.postprocess,
       Stage.associate3D, Stage.track] := rfl
  rw [h]
  decide

/-- C4 (amended): for working-sensor frames, lane detection, lane 2D
postprocessing and lane 3D postprocessing are each distinct failure points:
a failure from any of them makes `Perception` return failure with exactly the
preceding lane invocations in the trace.  The fresh Calibration State update
is invoked between 2D and 3D postprocessing, but its reported result is
discarded at the call site: even when it reports failure, lane 3D
postprocessing is still invoked. -/
theorem C4_three_lane_failure_points_update_unchecked (p : Pipeline)
    (f : Frame) (km : Mat3) (svc : CalibService)
    (hm : mapFind p.nameIntrinsicMap f.sensorName = some km)
    (hc : f.calibrationService = some svc)
    (hw : p.laneCalibrationWorkingSensorName = f.sensorName) :
    ((p.laneDetector (withK f km)).1 = false →
      Perception p f = (PResult.fail (p.laneDetector (withK f km)).2,
                        [(Stage.laneDetect, withK f km)])) ∧
    (∀ f1, p.laneDetector (withK f km) = (true, f1) →
      (p.lanePostprocessor.process2D f1).1 = false →
      Perception p f =
        (PResult.fail (p.lanePostprocessor.process2D f1).2,
         [(Stage.laneDetect, withK f km), (Stage.lanePost2D, f1)])) ∧
    (∀ f1 f2 svc2, p.laneDetector (withK f km) = (true, f1) →
      p.lanePostprocessor.process2D f1 = (true, f2) →
      f2.calibrationService = some svc2 →
      (p.lanePostprocessor.process3D (updatedFrame f2 svc2)).1 = false →
      Perception p f =
        (PResult.fail
           (p.lanePostprocessor.process3D (updatedFrame f2 svc2)).2,
         [(Stage.laneDetect, withK f km), (Stage.lanePost2D, f1),
          (Stage.calibUpdate, f2),
          (Stage.lanePost3D, updatedFrame f2 svc2)])) ∧
    (∀ f1 f2 svc2, p.laneDetector (withK f km) = (true, f1) →
      p.lanePostprocessor.process2D f1 = (true, f2) →
      f2.calibrationService = some svc2 →
      (svc2.update f2.sensorName f2.laneObjects).1 = false →
      (Stage.lanePost3D, updatedFrame f2 svc2) ∈ (Perception p f).2) := by
  have heq := Perception_branch_eq p f km svc hm hc
  rw [if_pos hw] at heq
  refine ⟨?_, ?_, ?_, ?_⟩
  · intro hfail
    rw [heq]
    unfold laneBranch
    exact runStage_fst_false hfail
  · intro f1 h1 hfail
    rw [heq]
    unfold laneBranch
    rw [runStage_true (by rw [h1])]
    simp only [h1]
    rw [runStage_fst_false hfail]
  · intro f1 f2 svc2 h1 h2 hc2 hfail
    rw [heq]
    unfold laneBranch
    rw [runStage_true (by rw [h1])]
    simp only [h1]
    rw [runStage_true (by rw [h2])]
    simp only [h2]
    rw [calibUpdateStep_some hc2]
    rw [runStage_fst_false hfail]
  · intro f1 f2 svc2 h1 h2 hc2 hfail
    rw [heq]
    unfold laneBranch
    rw [runStage_true (by rw [h1])]
    simp only [h1]
    rw [runStage_true (by rw [h2])]
    simp only [h2]
    rw [calibUpdateStep_some hc2]
    refine List.mem_cons_of_mem _ (List.mem_cons_of_mem _
      (List.mem_cons_of_mem _ ?_))
    exact runStage_self_mem Stage.lanePost3D
      p.lanePostprocessor.process3D (updatedFrame f2 svc2) _

/-- Witness for the amended C4 at a concrete run whose calibration update
reports failure. -/
theorem C4_witness :
    (Stage.lanePost3D,
      updatedFrame (withK sFrameFail { val := 10 }) sSvcFail) ∈
      (Perception sPipe sFrameFail).2 :=
  (C4_three_lane_failure_points_update_unchecked sPipe sFrameFail
      { val := 10 } sSvcFail rfl rfl rfl).2.2.2
    (withK sFrameFail { val := 10 }) (withK sFrameFail { val := 10 })
    sSvcFail rfl rfl rfl rfl

/-- C7: a missing feature-extractor configuration is not an initialization
error — `Init` leaves the extractor absent — and `Perception` then never
invokes the extraction stage (and can still succeed, see the witness);
whereas with a configured extractor, an extraction failure at the extraction
invocation makes `Perception` return exactly that failure. -/
theorem C7_feature_extractor_optional :
    (∀ (env : InitEnv) (opts : CameraPerceptionInitOptions)
       (param : PerceptionParam) (p : Pipeline),
      Init env opts param = some p → param.featureParam = none →
        p.extractor = none) ∧
    (∀ (p : Pipeline) (f : Frame), p.extractor = none →
        Stage.extract ∉ stagesOf (Perception p f)) ∧
    (∀ (p : Pipeline) (f g : Frame) (ex : StageFn), p.extractor = some ex →
        (Stage.extract, g) ∈ (Perception p f).2 → (ex g).1 = false →
        (Perception p f).1 = PResult.fail (ex g).2) := by
  refine ⟨?_, ?_, ?_⟩
  · intro env opts param p h hf
    obtain ⟨im, dm, model, -, -, -, -, hfe⟩ := Init_spec h
    exact hfe hf
  · intro p f hx hmem
    obtain ⟨e, he, he1⟩ := List.mem_map.mp hmem
    obtain ⟨s, g⟩ := e
    have hs : s = Stage.extract := he1
    subst hs
    obtain ⟨km, hm, hcs, hbr | hbr⟩ := perception_mem he
    · rcases laneBranch_mem hbr.2 with h1 | h1 | h1 | h1 | ⟨f4, h1⟩
      · simp at h1
      · simp at h1
      · simp at h1
      · simp at h1
      · exact obstacleStages_no_extract hx h1
    · rcases calibUpdateStep_mem hbr.2 with he2 | ⟨svc, hsvc, h1⟩
      · simp at he2
      · exact obstacleStages_no_extract hx h1
  · intro p f g ex hx hmem hfail
    obtain ⟨km, hm, hcs, hbr | hbr⟩ := perception_mem hmem
    · obtain ⟨svc, hsvc⟩ := Option.isSome_iff_exists.mp hcs
      have heq := Perception_branch_eq p f km svc hm hsvc
      rw [if_pos hbr.1] at heq
      rw [heq]
      exact laneBranch_extract_fail hx hbr.2 hfail
    · obtain ⟨svc, hsvc⟩ := Option.isSome_iff_exists.mp hcs
      have heq := Perception_branch_eq p f km svc hm hsvc
      rw [if_neg hbr.1] at heq
      rw [heq]
      rcases calibUpdateStep_mem hbr.2 with he2 | ⟨svc2, hsvc2, h1⟩
      · simp at he2
      · rw [calibUpdateStep_some hsvc2]
        exact obstacleStages_extract_fail hx h1 hfail

/-- Witness for C7: the sample configuration has no feature block;
initialization succeeds, the extractor is absent, extraction is skipped, and
the frame is still processed successfully. -/
theorem C7_witness :
    sParam.featureParam = none ∧ sInitPipe.extractor = none ∧
    Stage.extract ∉ stagesOf (Perception sInitPipe (sFrame "camB")) ∧
    (Perception sInitPipe (sFrame "camB")).1 =
      PResult.ok (normalizeTracked (stampDetected
        (withK (sFrame "camB") { val := 11 }))) :=
  ⟨rfl,
   C7_feature_extractor_optional.1 sEnv sOpts sParam sInitPipe rfl rfl,
   C7_feature_extractor_optional.2.1 sInitPipe (sFrame "camB")
     (C7_feature_extractor_optional.1 sEnv sOpts sParam sInitPipe rfl rfl),
   rfl⟩

/-- C9: in every run, the flag handed to the obstacle postprocessor —
computed at the call site as `frame->calibration_service != nullptr` from the
frame at that moment — is `true`, given the interface assumption that no
stage nulls the frame's calibration-service pointer: the null case is already
rejected by the CHECK at frame start. -/
theorem C9_postprocessor_flag_true (p : Pipeline) (f g : Frame)
    (hp : PipelinePreservesCalib p)
    (h : (Stage.postprocess, g) ∈ (Perception p f).2) :
    g.calibrationService.isSome = true := by
  obtain ⟨km, hm, hcs, hbr | hbr⟩ := perception_mem h
  · exact laneBranch_postprocess_calib hp hbr.2
  · rcases calibUpdateStep_mem hbr.2 with he | ⟨svc, hsvc, h1⟩
    · simp at he
    · exact obstacleStages_postprocess_calib hp (by rfl) h1

/-- Witness for C9 at the concrete postprocessing event of a sample run. -/
theorem C9_witness : sStampedB.calibrationService.isSome = true :=
  C9_postprocessor_flag_true sPipe (sFrame "camB") sStampedB sPipe_preserves
    (List.Mem.tail _ (List.Mem.tail _ (List.Mem.tail _ (List.Mem.tail _
      (List.Mem.tail _ (List.Mem.head _))))))

end ApolloPerception
